import Mathlib

/-!
Verification of the weather-agent data pipeline (`main.go`).

The Go source is shallowly embedded: pure helper functions become Lean
functions over `ℤ`, `ℚ` and `String`; the stateful `update` method becomes a
function on an explicit agent-state record; network calls are abstracted as
`Option`-valued inputs (a `none` models any HTTP/parse/status failure).
Go `float64` arithmetic is modelled by exact rational arithmetic, Go `int`
by `ℤ` (with Go's truncating `/` and `%` rendered as `Int.tdiv`/`Int.tmod`).
-/

/-- Model of Go `unicode.IsSpace` restricted to the whitespace characters in
Latin-1 (the set Go documents: space, tab, newline, vertical tab, form feed,
carriage return, NEL, NBSP). -/
def isGoSpace (c : Char) : Bool :=
  c = ' ' || c = '\t' || c = '\n' || c = '\x0b' || c = '\x0c' || c = '\r' ||
  c = '\x85' || c = '\xa0'

/-- Drop leading whitespace from a character list. -/
def ltrimL (l : List Char) : List Char := l.dropWhile isGoSpace

/-- Drop trailing whitespace from a character list. -/
def rtrimL (l : List Char) : List Char := (l.reverse.dropWhile isGoSpace).reverse

/-- Model of Go `strings.TrimSpace` on the character-list view (trimming
the two ends commutes, so the order is immaterial). -/
def trimL (l : List Char) : List Char := ltrimL (rtrimL l)

/-- Model of Go `strings.TrimSpace`. -/
def trimSpace (s : String) : String := ⟨trimL s.data⟩

/-- Function `weatherCodeToCondition` from `main.go`: WMO weather code to condition
label. -/
def weatherCodeToCondition (code : ℤ) : String :=
  if code = 0 then "Clear"
  else if code = 1 then "Mainly Clear"
  else if code = 2 ∨ code = 3 then "Clouds"
  else if 45 ≤ code ∧ code ≤ 49 then "Fog"
  else if 51 ≤ code ∧ code ≤ 59 then "Drizzle"
  else if 61 ≤ code ∧ code ≤ 69 then "Rain"
  else if 71 ≤ code ∧ code ≤ 79 then "Snow"
  else if 80 ≤ code ∧ code ≤ 82 then "Rain"
  else if 85 ≤ code ∧ code ≤ 86 then "Snow"
  else if 95 ≤ code ∧ code ≤ 99 then "Thunderstorm"
  else "Unknown"

/-- Function `weatherCodeToDescription` from `main.go`: finer-grained description. -/
def weatherCodeToDescription (code : ℤ) : String :=
  if code = 0 then "clear sky"
  else if code = 1 then "mainly clear"
  else if code = 2 then "partly cloudy"
  else if code = 3 then "overcast"
  else if code = 45 then "fog"
  else if code = 48 then "depositing rime fog"
  else if code = 51 then "light drizzle"
  else if code = 53 then "moderate drizzle"
  else if code = 55 then "dense drizzle"
  else if code = 61 then "slight rain"
  else if code = 63 then "moderate rain"
  else if code = 65 then "heavy rain"
  else if code = 71 then "slight snow fall"
  else if code = 73 then "moderate snow fall"
  else if code = 75 then "heavy snow fall"
  else if code = 95 then "thunderstorm"
  else if code = 96 ∨ code = 99 then "thunderstorm with hail"
  else "unknown conditions"

/-- The exact weather codes that `weatherCodeToDescription` maps; every other
code falls back to "unknown conditions". -/
def mappedDescriptionCodes : List ℤ :=
  [0, 1, 2, 3, 45, 48, 51, 53, 55, 61, 63, 65, 71, 73, 75, 95, 96, 99]

/-- The condition labels `weatherCodeToCondition` can produce. -/
def conditionLabels : List String :=
  ["Clear", "Mainly Clear", "Clouds", "Fog", "Drizzle", "Rain", "Snow",
   "Thunderstorm", "Unknown"]

/-- Function `getAQIDescription` from `main.go`: description for the OpenWeatherMap
1–5 air-quality scale. -/
def getAQIDescription (aqi : ℤ) : String :=
  if aqi = 1 then
    "Good (1): Air quality is considered satisfactory, and air pollution poses little or no risk."
  else if aqi = 2 then
    "Fair (2): Air quality is acceptable; however, for some pollutants there may be a moderate health concern for a very small number of people."
  else if aqi = 3 then
    "Moderate (3): Members of sensitive groups may experience health effects. The general public is not likely to be affected."
  else if aqi = 4 then
    "Poor (4): Everyone may begin to experience health effects; members of sensitive groups may experience more serious health effects."
  else if aqi = 5 then
    "Very Poor (5): Health warnings of emergency conditions. The entire population is more likely to be affected."
  else "Unknown AQI value"

/-- The U.S. AQI category switch inside `fetchIQAirData` in `main.go`. -/
def iqairCategory (aqi : ℤ) : String :=
  if aqi ≤ 50 then "Good"
  else if aqi ≤ 100 then "Moderate"
  else if aqi ≤ 150 then "Unhealthy for Sensitive Groups"
  else if aqi ≤ 200 then "Unhealthy"
  else if aqi ≤ 300 then "Very Unhealthy"
  else "Hazardous"

/-- Index of a U.S. AQI category in severity order, for stating
monotonicity. -/
def usCategoryRank (s : String) : ℕ :=
  if s = "Good" then 0
  else if s = "Moderate" then 1
  else if s = "Unhealthy for Sensitive Groups" then 2
  else if s = "Unhealthy" then 3
  else if s = "Very Unhealthy" then 4
  else 5

/-- The wind-direction switch inside `prepareWeatherData` in `main.go`.
The Go code converts the integer bearing to `float64` and compares against
the 22.5°-step sector boundaries. -/
def windDirectionText (deg : ℤ) : String :=
  if (deg : ℚ) ≥ 337.5 ∨ (deg : ℚ) < 22.5 then "N"
  else if (deg : ℚ) ≥ 22.5 ∧ (deg : ℚ) < 67.5 then "NE"
  else if (deg : ℚ) ≥ 67.5 ∧ (deg : ℚ) < 112.5 then "E"
  else if (deg : ℚ) ≥ 112.5 ∧ (deg : ℚ) < 157.5 then "SE"
  else if (deg : ℚ) ≥ 157.5 ∧ (deg : ℚ) < 202.5 then "S"
  else if (deg : ℚ) ≥ 202.5 ∧ (deg : ℚ) < 247.5 then "SW"
  else if (deg : ℚ) ≥ 247.5 ∧ (deg : ℚ) < 292.5 then "W"
  else "NW"

/-- The eight compass points in bearing order starting at north. -/
def compassPoints : List String := ["N", "NE", "E", "SE", "S", "SW", "W", "NW"]

/-- Compass point by 45°-wide sectors centred on each point (N centred on
0°): the point whose centre is nearest the bearing, ties rounding up. -/
def centredSectorPoint (deg : ℚ) : String :=
  (compassPoints.getD ((round (deg / 45)).toNat % 8) "N")

/-! ### Moon phase (from `prepareWeatherData`) -/

/-- Days since the reference new moon (Jan 6 2000, unix 947182440), with
Go's truncating integer division. -/
def daysSinceNewMoon (dt : ℤ) : ℤ := (dt - 947182440).tdiv 86400

/-- Value `moonAge` from `prepareWeatherData`: the day count reduced with Go's
`% 30`, divided by 29.53. -/
def moonAge (dt : ℤ) : ℚ := (((daysSinceNewMoon dt).tmod 30 : ℤ) : ℚ) / 29.53

/-- The moon-phase bucket switch from `prepareWeatherData`. -/
def moonPhase (dt : ℤ) : String :=
  if moonAge dt < 0.025 ∨ moonAge dt ≥ 0.975 then "New Moon"
  else if moonAge dt < 0.225 then "Waxing Crescent"
  else if moonAge dt < 0.275 then "First Quarter"
  else if moonAge dt < 0.475 then "Waxing Gibbous"
  else if moonAge dt < 0.525 then "Full Moon"
  else if moonAge dt < 0.725 then "Waning Gibbous"
  else if moonAge dt < 0.775 then "Last Quarter"
  else "Waning Crescent"

/-- Exact number of seconds in 29.53 days (one synodic month). -/
def synodicMonthSeconds : ℤ := 2551392

/-! ### Heat index (from `prepareWeatherData`) -/

/-- The Rothfusz regression polynomial exactly as written in
`prepareWeatherData` (temperature in °F, humidity in %). -/
def rothfusz (tempF hum : ℚ) : ℚ :=
  -42.379 + 2.04901523 * tempF + 10.14333127 * hum -
    0.22475541 * tempF * hum - 0.00683783 * tempF * tempF -
    0.05481717 * hum * hum +
    0.00122874 * tempF * tempF * hum +
    0.00085282 * tempF * hum * hum -
    0.00000199 * tempF * tempF * hum * hum

/-- Fahrenheit-equivalent of the stored temperature, as computed in
`prepareWeatherData` (conversion applied only in metric mode). -/
def tempFahrenheit (units : String) (temp : ℚ) : ℚ :=
  if units = "metric" then temp * 9 / 5 + 32 else temp

/-- The heat-index computation from `prepareWeatherData`: stays `0` (the Go
zero value of `var heatIndex float64`) unless temperature exceeds 80°F and
humidity exceeds 40%; otherwise the Rothfusz value, converted back to
Celsius in metric mode. -/
def heatIndexValue (units : String) (temp : ℚ) (humidity : ℤ) : ℚ :=
  if tempFahrenheit units temp > 80 ∧ humidity > 40 then
    if units = "metric" then
      (rothfusz (tempFahrenheit units temp) (humidity : ℚ) - 32) * 5 / 9
    else rothfusz (tempFahrenheit units temp) (humidity : ℚ)
  else 0

/-! ### Numeric and time formatting helpers (models of `fmt.Sprintf` verbs
and `time.Format` layouts used in `prepareWeatherData`) -/

/-- Round a rational to the nearest integer, ties to even (the rounding of
Go's `%.Nf` formatting). -/
def roundHalfEven (q : ℚ) : ℤ :=
  if q - ⌊q⌋ < 1 / 2 then ⌊q⌋
  else if q - ⌊q⌋ > 1 / 2 then ⌊q⌋ + 1
  else if (⌊q⌋).emod 2 = 0 then ⌊q⌋ else ⌊q⌋ + 1

/-- Left-pad a string with zeros to width `w`. -/
def padLeftZeros (w : ℕ) (s : String) : String :=
  if s.length ≥ w then s else ⟨List.replicate (w - s.length) '0'⟩ ++ s

/-- Model of Go `fmt.Sprintf("%.<prec>f", q)`. -/
def fmtFixed (prec : ℕ) (q : ℚ) : String :=
  let n := roundHalfEven (q * ((10 : ℚ) ^ prec))
  let sign := if n < 0 then "-" else ""
  let m := n.natAbs
  if prec = 0 then sign ++ toString m
  else sign ++ toString (m / 10 ^ prec) ++ "." ++
    padLeftZeros prec (toString (m % 10 ^ prec))

/-- Model of Go `fmt.Sprintf("%d", n)` for integers. -/
def fmtInt (n : ℤ) : String :=
  if n < 0 then "-" ++ toString n.natAbs else toString n.natAbs

/-- Seconds past local midnight for a unix instant viewed at a fixed UTC
offset. -/
def wallSeconds (unix offset : ℤ) : ℤ := (unix + offset).emod 86400

/-- Local hour of day (0–23), as Go `time.Time.Hour()`. -/
def hourOfDay (unix offset : ℤ) : ℤ := (wallSeconds unix offset).tdiv 3600

/-- Local minute (0–59). -/
def minuteOfHour (unix offset : ℤ) : ℤ :=
  ((wallSeconds unix offset).tmod 3600).tdiv 60

/-- Local second (0–59). -/
def secondOfMinute (unix offset : ℤ) : ℤ := (wallSeconds unix offset).tmod 60

/-- Two-digit zero-padded rendering of a small nonnegative integer. -/
def pad2 (n : ℤ) : String := padLeftZeros 2 (toString n.natAbs)

/-- Model of Go layout `"15:04"` (24-hour clock, zero-padded). -/
def fmtTime24 (unix offset : ℤ) : String :=
  pad2 (hourOfDay unix offset) ++ ":" ++ pad2 (minuteOfHour unix offset)

/-- Hour on the 12-hour clock (1–12). -/
def hour12 (unix offset : ℤ) : ℤ :=
  let h := (hourOfDay unix offset).tmod 12
  if h = 0 then 12 else h

/-- AM/PM marker. -/
def amPm (unix offset : ℤ) : String :=
  if hourOfDay unix offset < 12 then "AM" else "PM"

/-- Model of Go layout `"3:04 PM"`. -/
def fmtTime12 (unix offset : ℤ) : String :=
  fmtInt (hour12 unix offset) ++ ":" ++ pad2 (minuteOfHour unix offset) ++
    " " ++ amPm unix offset

/-- Model of Go layout `"3:04:05 PM"`. -/
def fmtTime12s (unix offset : ℤ) : String :=
  fmtInt (hour12 unix offset) ++ ":" ++ pad2 (minuteOfHour unix offset) ++
    ":" ++ pad2 (secondOfMinute unix offset) ++ " " ++ amPm unix offset

/-- Whole days since the unix epoch for a local instant. -/
def epochDays (unix offset : ℤ) : ℤ := (unix + offset).fdiv 86400

/-- Gregorian civil date (year, month, day) from a day count since the unix
epoch (standard era-based conversion). -/
def civilFromDays (z : ℤ) : ℤ × ℤ × ℤ :=
  let z' := z + 719468
  let era := z'.fdiv 146097
  let doe := z' - era * 146097
  let yoe := (doe - doe.tdiv 1460 + doe.tdiv 36524 - doe.tdiv 146096).tdiv 365
  let y := yoe + era * 400
  let doy := doe - (365 * yoe + yoe.tdiv 4 - yoe.tdiv 100)
  let mp := (5 * doy + 2).tdiv 153
  let d := doy - (153 * mp + 2).tdiv 5 + 1
  let m := mp + (if mp < 10 then 3 else -9)
  (y + (if m ≤ 2 then 1 else 0), m, d)

/-- English month names, January first. -/
def monthName (m : ℤ) : String :=
  (["January", "February", "March", "April", "May", "June", "July",
    "August", "September", "October", "November", "December"].getD
    (m - 1).toNat "January")

/-- English weekday names as produced by Go `time.Weekday.String` (the unix
epoch day was a Thursday). -/
def weekdayName (unix offset : ℤ) : String :=
  (["Sunday", "Monday", "Tuesday", "Wednesday", "Thursday", "Friday",
    "Saturday"].getD ((epochDays unix offset + 4).emod 7).toNat "Sunday")

/-- Model of Go layout `"January 2, 2006"`. -/
def fmtDate (unix offset : ℤ) : String :=
  let (y, m, d) := civilFromDays (epochDays unix offset)
  monthName m ++ " " ++ fmtInt d ++ ", " ++ fmtInt y

/-- Model of Go layout `"Monday, January 2, 2006 at 3:04 PM"`. -/
def fmtFullDateTime (unix offset : ℤ) : String :=
  weekdayName unix offset ++ ", " ++ fmtDate unix offset ++ " at " ++
    fmtTime12 unix offset

/-! ### Data model (`WeatherResponse` and friends from `main.go`) -/

/-- One entry of the `Weather` array. -/
structure WeatherItem where
  id : ℤ
  main : String
  description : String
  icon : String
deriving DecidableEq

/-- The `Main` block of `WeatherResponse`. -/
structure WeatherMain where
  temp : ℚ
  feelsLike : ℚ
  tempMin : ℚ
  tempMax : ℚ
  pressure : ℤ
  humidity : ℤ
deriving DecidableEq

/-- The `Wind` block. -/
structure WeatherWind where
  speed : ℚ
  deg : ℤ
  gust : ℚ
deriving DecidableEq

/-- The `Rain`/`Snow` blocks. -/
structure Precip where
  oneHour : ℚ
  threeHours : ℚ
deriving DecidableEq

/-- The `Sys` block. -/
structure SysInfo where
  country : String
  sunrise : ℤ
  sunset : ℤ
deriving DecidableEq

/-- The `IQAirData` block attached to a `WeatherResponse`; the Go zero value
(`aqi = 0`) means "no IQAir data". -/
structure IQAirData where
  aqi : ℤ
  category : String
  pollutantName : String
  pollutantValue : ℚ
  pollutantUnit : String
  pm25 : ℚ
  pm10 : ℚ
deriving DecidableEq

/-- The zero value of `IQAirData`. -/
def IQAirData.zero : IQAirData := ⟨0, "", "", 0, "", 0, 0⟩

/-- Pollutant components of one OpenWeatherMap air-pollution entry. -/
structure AQIComponents where
  co : ℚ
  no : ℚ
  no2 : ℚ
  o3 : ℚ
  so2 : ℚ
  pm2_5 : ℚ
  pm10 : ℚ
  nh3 : ℚ
deriving DecidableEq

/-- One entry of the OpenWeatherMap `AQI.List`. -/
structure AQIEntry where
  aqi : ℤ
  components : AQIComponents
deriving DecidableEq

/-- The canonical snapshot type (`WeatherResponse` in `main.go`). -/
structure WeatherResponse where
  weather : List WeatherItem
  main : WeatherMain
  wind : WeatherWind
  clouds : ℤ
  rain : Precip
  snow : Precip
  visibility : ℤ
  name : String
  sys : SysInfo
  timezone : ℤ
  dt : ℤ
  isDay : ℤ
  aqiList : List AQIEntry
  iqairData : IQAirData
deriving DecidableEq

/-- Values of the `map[string]interface{}` built by `prepareWeatherData`. -/
inductive JVal where
  | str : String → JVal
  | int : ℤ → JVal
  | bool : Bool → JVal
deriving DecidableEq

/-- Function `getTempUnit` from `main.go`. -/
def getTempUnit (units : String) : String :=
  if units = "imperial" then "°F" else "°C"

/-- Function `getWindUnit` from `main.go`. -/
def getWindUnit (units : String) : String :=
  if units = "imperial" then "mph" else "m/s"

/-- Model of Go `fmt.Sprintf("%+d", n)`. -/
def fmtSignedInt (n : ℤ) : String :=
  (if n < 0 then "-" else "+") ++ toString n.natAbs

/-- Sunrise string from `prepareWeatherData` (empty when sunrise/sunset data
is unavailable, i.e. not both positive). -/
def sunriseStr (w : WeatherResponse) : String :=
  if w.sys.sunrise > 0 ∧ w.sys.sunset > 0 then
    fmtTime12 w.sys.sunrise w.timezone
  else ""

/-- Sunset string from `prepareWeatherData`. -/
def sunsetStr (w : WeatherResponse) : String :=
  if w.sys.sunrise > 0 ∧ w.sys.sunset > 0 then
    fmtTime12 w.sys.sunset w.timezone
  else ""

/-- Day length in hours from `prepareWeatherData` (the Go zero value `0.0`
when sunrise/sunset data is unavailable). -/
def dayLengthHours (w : WeatherResponse) : ℚ :=
  if w.sys.sunrise > 0 ∧ w.sys.sunset > 0 then
    ((w.sys.sunset - w.sys.sunrise : ℤ) : ℚ) / 3600
  else 0

/-- Day/night determination from `prepareWeatherData`: a fixed 06:00–20:00
local-hour window, overridden by the sunrise/sunset comparison when both
timestamps are available. -/
def isDaytime (w : WeatherResponse) : Bool :=
  if w.sys.sunrise > 0 ∧ w.sys.sunset > 0 then
    w.dt ≥ w.sys.sunrise ∧ w.dt < w.sys.sunset
  else
    6 ≤ hourOfDay w.dt w.timezone ∧ hourOfDay w.dt w.timezone < 20

/-- Visibility after the `<= 0` default substitution in
`prepareWeatherData`. -/
def effectiveVisibility (w : WeatherResponse) : ℤ :=
  if w.visibility ≤ 0 then 10000 else w.visibility

/-- The visibility display string from `prepareWeatherData`. -/
def visibilityStr (units : String) (w : WeatherResponse) : String :=
  let v := effectiveVisibility w
  if v = 10000 then
    if units = "metric" then "10+ km (excellent)" else "6.2+ miles (excellent)"
  else if units = "metric" then fmtFixed 1 ((v : ℚ) / 1000) ++ " km"
  else fmtFixed 1 ((v : ℚ) / 1609.34) ++ " miles"

/-- The unconditional part of the data map built by `prepareWeatherData`
(the Go map literal), in source order. -/
def baseWeatherData (units : String) (w : WeatherResponse) :
    List (String × JVal) :=
  let time12h := fmtTime12 w.dt w.timezone
  let time24h := fmtTime24 w.dt w.timezone
  let condition := (w.weather.headD ⟨0, "", "", ""⟩).main
  let description := (w.weather.headD ⟨0, "", "", ""⟩).description
  let weatherId := (w.weather.headD ⟨0, "", "", ""⟩).id
  let dayNightString := if isDaytime w then "DAYTIME" else "NIGHTTIME"
  [("city", .str w.name),
   ("country", .str w.sys.country),
   ("current_local_time", .str (time12h ++ " (" ++ time24h ++ " in 24-hour format)")),
   ("time_12h", .str time12h),
   ("time_24h", .str time24h),
   ("time_with_seconds", .str (fmtTime12s w.dt w.timezone)),
   ("full_date_and_time", .str (fmtFullDateTime w.dt w.timezone)),
   ("day_of_week", .str (weekdayName w.dt w.timezone)),
   ("hour_of_day", .int (hourOfDay w.dt w.timezone)),
   ("is_daytime_or_night", .str dayNightString),
   ("date", .str (fmtDate w.dt w.timezone)),
   ("temperature", .str (fmtFixed 1 w.main.temp ++ getTempUnit units)),
   ("feels_like", .str (fmtFixed 1 w.main.feelsLike ++ getTempUnit units)),
   ("temp_min", .str (fmtFixed 1 w.main.tempMin ++ getTempUnit units)),
   ("temp_max", .str (fmtFixed 1 w.main.tempMax ++ getTempUnit units)),
   ("condition", .str condition),
   ("description", .str description),
   ("weather_id", .int weatherId),
   ("humidity", .int w.main.humidity),
   ("pressure", .str (fmtInt w.main.pressure ++ " hPa")),
   ("wind_speed", .str (fmtFixed 1 w.wind.speed ++ " " ++ getWindUnit units)),
   ("wind_direction", .int w.wind.deg),
   ("wind_direction_text", .str (windDirectionText w.wind.deg)),
   ("wind_gust", .str (fmtFixed 1 w.wind.gust ++ " " ++ getWindUnit units)),
   ("visibility", .str (visibilityStr units w)),
   ("cloud_cover", .str (fmtInt w.clouds ++ "%")),
   ("sunrise", .str (sunriseStr w)),
   ("sunset", .str (sunsetStr w)),
   ("day_length", .str (fmtFixed 1 (dayLengthHours w) ++ " hours")),
   ("moon_phase", .str (moonPhase w.dt)),
   ("units", .str units),
   ("is_daytime", .bool (isDaytime w)),
   ("timezone_offset_hours", .int (w.timezone.tdiv 3600)),
   ("timezone_name", .str ("UTC" ++ fmtSignedInt (w.timezone.tdiv 3600)))]

/-- The AQI fields added by `prepareWeatherData`: IQAir data first, else the
OpenWeatherMap list, else nothing. -/
def aqiFields (w : WeatherResponse) : List (String × JVal) :=
  if w.iqairData.aqi > 0 then
    [("aqi", .int w.iqairData.aqi),
     ("aqi_description", .str w.iqairData.category),
     ("aqi_source", .str "IQAir"),
     ("pollutant_name", .str w.iqairData.pollutantName),
     ("pollutant_value", .str (fmtFixed 1 w.iqairData.pollutantValue ++ " " ++ w.iqairData.pollutantUnit)),
     ("pm2_5", .str (fmtFixed 1 w.iqairData.pm25 ++ " μg/m³")),
     ("pm10", .str (fmtFixed 1 w.iqairData.pm10 ++ " μg/m³"))]
  else
    match w.aqiList.head? with
    | some entry =>
      [("aqi", .int entry.aqi),
       ("aqi_description", .str (getAQIDescription entry.aqi)),
       ("aqi_source", .str "OpenWeatherMap"),
       ("co", .str (fmtFixed 1 entry.components.co ++ " μg/m³")),
       ("no2", .str (fmtFixed 1 entry.components.no2 ++ " μg/m³")),
       ("o3", .str (fmtFixed 1 entry.components.o3 ++ " μg/m³")),
       ("so2", .str (fmtFixed 1 entry.components.so2 ++ " μg/m³")),
       ("pm2_5", .str (fmtFixed 1 entry.components.pm2_5 ++ " μg/m³")),
       ("pm10", .str (fmtFixed 1 entry.components.pm10 ++ " μg/m³"))]
    | none => []

/-- The conditional heat-index field of `prepareWeatherData`. -/
def heatIndexFields (units : String) (w : WeatherResponse) :
    List (String × JVal) :=
  if heatIndexValue units w.main.temp w.main.humidity > 0 then
    [("heat_index", .str (fmtFixed 1 (heatIndexValue units w.main.temp w.main.humidity) ++ getTempUnit units))]
  else []

/-- The conditional rain/snow fields of `prepareWeatherData`. -/
def precipFields (w : WeatherResponse) : List (String × JVal) :=
  (if w.rain.oneHour > 0 then [("rain_1h", JVal.str (fmtFixed 1 w.rain.oneHour ++ " mm"))] else []) ++
  (if w.rain.threeHours > 0 then [("rain_3h", JVal.str (fmtFixed 1 w.rain.threeHours ++ " mm"))] else []) ++
  (if w.snow.oneHour > 0 then [("snow_1h", JVal.str (fmtFixed 1 w.snow.oneHour ++ " mm"))] else []) ++
  (if w.snow.threeHours > 0 then [("snow_3h", JVal.str (fmtFixed 1 w.snow.threeHours ++ " mm"))] else [])

/-- Function `prepareWeatherData` from `main.go` as an association list in insertion
order (all keys are distinct, so a Go map assignment is an append). -/
def prepareWeatherData (units : String) (w : WeatherResponse) :
    List (String × JVal) :=
  baseWeatherData units w ++ (aqiFields w ++ (heatIndexFields units w ++
    (precipFields w ++ [("time", .str (fmtTime12 w.dt w.timezone))])))

/-! ### AQI resolution inside `fetchWeather` / `fetchIQAirData` -/

/-- Parsed pollution block of a successful IQAir response. -/
structure IQAirPollution where
  aqius : ℤ
  mainus : String
  p2 : ℚ
  p1 : ℚ
  o3 : ℚ
  n2 : ℚ
  s2 : ℚ
  co : ℚ
deriving DecidableEq

/-- Pollutant unit switch from `fetchIQAirData`. -/
def pollutantUnitOf (p : String) : String :=
  if p = "p2" then "μg/m³"
  else if p = "p1" then "μg/m³"
  else if p = "o3" then "ppb"
  else if p = "n2" then "ppb"
  else if p = "s2" then "ppb"
  else if p = "co" then "ppm"
  else "μg/m³"

/-- Pollutant value switch from `fetchIQAirData`. -/
def pollutantValueOf (p : String) (r : IQAirPollution) : ℚ :=
  if p = "p2" then r.p2
  else if p = "p1" then r.p1
  else if p = "o3" then r.o3
  else if p = "n2" then r.n2
  else if p = "s2" then r.s2
  else if p = "co" then r.co
  else 0

/-- Pollutant human-name switch from `fetchIQAirData`. -/
def pollutantNameOf (p : String) : String :=
  if p = "p2" then "PM2.5"
  else if p = "p1" then "PM10"
  else if p = "o3" then "Ozone"
  else if p = "n2" then "Nitrogen Dioxide"
  else if p = "s2" then "Sulfur Dioxide"
  else if p = "co" then "Carbon Monoxide"
  else p

/-- Function `fetchIQAirData` from `main.go`: on any request/parse/status failure
(`none`) the snapshot is left untouched; on success the IQAir block is
filled in with the U.S. AQI category and pollutant mapping. -/
def fetchIQAirData (resp : Option IQAirPollution) (w : WeatherResponse) :
    WeatherResponse :=
  match resp with
  | none => w
  | some r =>
    { w with iqairData :=
        { aqi := r.aqius
          category := iqairCategory r.aqius
          pollutantName := pollutantNameOf r.mainus
          pollutantValue := pollutantValueOf r.mainus r
          pollutantUnit := pollutantUnitOf r.mainus
          pm25 := r.p2
          pm10 := r.p1 } }

/-- The two air-quality providers. -/
inductive AQIProvider where
  | iqair
  | openWeatherMap
deriving DecidableEq

/-- The AQI branch of `fetchWeather` in `main.go`: when an IQAir key is
configured only IQAir is called; only when no key is configured is the
OpenWeatherMap air-pollution endpoint called. The returned list records
which providers were consulted. -/
def fetchAQIStep (iqairKeyConfigured : Bool)
    (iqairResp : Option IQAirPollution) (owmResp : Option (List AQIEntry))
    (w : WeatherResponse) : List AQIProvider × WeatherResponse :=
  if iqairKeyConfigured then
    ([.iqair], fetchIQAirData iqairResp w)
  else
    ([.openWeatherMap],
      match owmResp with
      | some l => if l ≠ [] then { w with aqiList := l } else w
      | none => w)

/-! ### Reverse geocoding (`reverseGeocode` and its fallbacks) -/

/-- Model of Go `strings.Contains`. -/
def strContains (s sub : String) : Bool := decide (sub.data <:+: s.data)

/-- Parsed body of a successful BigDataCloud reverse-geocode response. -/
structure BDCResponse where
  city : String
  locality : String
  countryCode : String
deriving DecidableEq

/-- Parsed address block of a successful Nominatim response. -/
structure NominatimAddress where
  city : String
  town : String
  village : String
  municipality : String
  county : String
  countryCode : String
deriving DecidableEq

/-- Function `tryBigDataCloudGeocode` from `main.go`: `none` models any request or
parse failure (the Go function returns `"", ""`); otherwise accept the
`city` field, else `locality`. -/
def tryBigDataCloudGeocode (resp : Option BDCResponse) : String × String :=
  match resp with
  | none => ("", "")
  | some r =>
    let cityName := if r.city = "" then r.locality else r.city
    if cityName ≠ "" then (cityName, r.countryCode.map Char.toUpper)
    else ("", "")

/-- Function `tryNominatimGeocode` from `main.go`: city/town/village/municipality/
county in that priority order. -/
def tryNominatimGeocode (resp : Option NominatimAddress) : String × String :=
  match resp with
  | none => ("", "")
  | some a =>
    let cityName :=
      if a.city ≠ "" then a.city
      else if a.town ≠ "" then a.town
      else if a.village ≠ "" then a.village
      else if a.municipality ≠ "" then a.municipality
      else if a.county ≠ "" then a.county
      else ""
    if cityName ≠ "" then (cityName, a.countryCode.map Char.toUpper)
    else ("", "")

/-- One row of the static major-city table in
`guessLocationFromCoordinates`. -/
structure CityEntry where
  name : String
  country : String
  lat : ℚ
  lon : ℚ
  radius : ℚ
deriving DecidableEq

/-- The static major-city table from `main.go`. -/
def knownCities : List CityEntry :=
  [⟨"New York", "US", 40.7128, -74.0060, 0.5⟩,
   ⟨"Los Angeles", "US", 34.0522, -118.2437, 0.5⟩,
   ⟨"Chicago", "US", 41.8781, -87.6298, 0.3⟩,
   ⟨"London", "GB", 51.5074, -0.1278, 0.3⟩,
   ⟨"Paris", "FR", 48.8566, 2.3522, 0.3⟩,
   ⟨"Tokyo", "JP", 35.6762, 139.6503, 0.5⟩,
   ⟨"Sydney", "AU", -33.8688, 151.2093, 0.3⟩,
   ⟨"Toronto", "CA", 43.6532, -79.3832, 0.3⟩]

/-- The coordinate-synthesized placeholder name ("Location %.2f,%.2f"). -/
def coordLabel (lat lon : ℚ) : String :=
  "Location " ++ fmtFixed 2 lat ++ "," ++ fmtFixed 2 lon

/-- The radius test of `guessLocationFromCoordinates`: squared degree
distance below the squared radius. -/
def cityMatch (lat lon : ℚ) (c : CityEntry) : Bool :=
  (lat - c.lat) * (lat - c.lat) + (lon - c.lon) * (lon - c.lon) <
    c.radius * c.radius

/-- Function `guessLocationFromCoordinates` from `main.go`: first table row whose
coordinates match, else the placeholder with country "Unknown". -/
def guessLocationFromCoordinates (lat lon : ℚ) : String × String :=
  match knownCities.find? (cityMatch lat lon) with
  | some c => (c.name, c.country)
  | none => (coordLabel lat lon, "Unknown")

/-- The acceptance test `reverseGeocode` applies to each provider's name:
nonempty and not a "Location …" placeholder. -/
def geoAccept (name : String) : Bool :=
  name ≠ "" && !(strContains name "Location")

/-- The three stages of the reverse-geocoding fallback chain. -/
inductive GeoStage where
  | bigDataCloud
  | nominatim
  | staticTable
deriving DecidableEq

/-- Function `reverseGeocode` from `main.go`, instrumented with the list of stages
consulted: BigDataCloud, then Nominatim, then the static table — each later
stage only when every earlier one was rejected. -/
def reverseGeocode (bdc : Option BDCResponse) (nom : Option NominatimAddress)
    (lat lon : ℚ) : List GeoStage × (String × String) :=
  let r1 := tryBigDataCloudGeocode bdc
  if geoAccept r1.1 then ([.bigDataCloud], r1)
  else
    let r2 := tryNominatimGeocode nom
    if geoAccept r2.1 then ([.bigDataCloud, .nominatim], r2)
    else ([.bigDataCloud, .nominatim, .staticTable],
      guessLocationFromCoordinates lat lon)

/-! ### The `update` method (history push, generation, dedup) -/

/-- Mutable agent state touched by `update` (`weatherHistory`,
`lastMessage`, `lastMessageTime`); the wall-clock instant is abstracted as
an integer. -/
structure AgentState where
  weatherHistory : List WeatherResponse
  lastMessage : String
  lastMessageTime : ℤ
deriving DecidableEq

/-- The external effects one `update` run depends on: the weather fetch,
the first LLM generation and the single retry (each `none` on error), and
the current instant. -/
structure UpdateEnv where
  fetchResult : Option WeatherResponse
  genResult : Option String
  retryResult : Option String
  now : ℤ
deriving DecidableEq

/-- History append with the 24-entry cap from `update`. -/
def pushHistory (h : List WeatherResponse) (w : WeatherResponse) :
    List WeatherResponse :=
  let h' := h ++ [w]
  if h'.length > 24 then h'.drop 1 else h'

/-- The timestamp `update` uses for disambiguation:
`time.Unix(dt,0).UTC().Add(timezone seconds)` formatted as `"15:04"`. -/
def messageStamp (w : WeatherResponse) : String := fmtTime24 w.dt w.timezone

/-- The dedup policy of `update`: if the fresh message matches the stored
one after trimming, use the retry text when it succeeded and differs, else
prepend the local-time stamp. -/
def dedupMessage (last message : String) (retryResult : Option String)
    (stamp : String) : String :=
  if trimSpace message = trimSpace last then
    match retryResult with
    | some varied =>
      if trimSpace varied ≠ trimSpace last then varied
      else "[" ++ stamp ++ "] " ++ message
    | none => "[" ++ stamp ++ "] " ++ message
  else message

/-- Method `update` from `main.go`: abort on fetch failure; push to history; abort
message update on generation failure; otherwise store the dedup-filtered
message and the current instant. -/
def update (s : AgentState) (env : UpdateEnv) : AgentState :=
  match env.fetchResult with
  | none => s
  | some w =>
    let hist := pushHistory s.weatherHistory w
    match env.genResult with
    | none => { s with weatherHistory := hist }
    | some message =>
      { weatherHistory := hist
        lastMessage := dedupMessage s.lastMessage message env.retryResult
          (messageStamp w)
        lastMessageTime := env.now }


/-! ## Claim theorems -/

/-- C2 (counterexample): the condition mapper does not produce the spec's
label "Rain showers" for code 80; it produces "Rain". -/
theorem weatherCode80_not_rain_showers :
    weatherCodeToCondition 80 = "Rain" ∧
    weatherCodeToCondition 80 ≠ "Rain showers" := by
  constructor <;> decide

/-- Every condition label the mapper can produce is in the fixed set. -/
theorem weatherCodeToCondition_mem (code : ℤ) :
    weatherCodeToCondition code ∈ conditionLabels := by
  unfold weatherCodeToCondition
  split_ifs <;> simp [conditionLabels]

/-- The description function falls back to "unknown conditions" on every
code outside its exact-match table. -/
theorem weatherCodeToDescription_fallback (code : ℤ)
    (h : code ∉ mappedDescriptionCodes) :
    weatherCodeToDescription code = "unknown conditions" := by
  simp only [mappedDescriptionCodes, List.mem_cons, List.not_mem_nil,
    or_false, not_or] at h
  obtain ⟨e0, e1, e2, e3, e45, e48, e51, e53, e55, e61, e63, e65, e71,
    e73, e75, e95, e96, e99⟩ := h
  unfold weatherCodeToDescription
  rw [if_neg e0, if_neg e1, if_neg e2, if_neg e3, if_neg e45, if_neg e48,
    if_neg e51, if_neg e53, if_neg e55, if_neg e61, if_neg e63, if_neg e65,
    if_neg e71, if_neg e73, if_neg e75, if_neg e95,
    if_neg (not_or.mpr ⟨e96, e99⟩)]

set_option maxHeartbeats 4000000 in
/-- C2 (amended): the condition mapper realises the bucket table with
plain "Rain" for 80–82 and plain "Snow" for 85–86; every code 0–99 maps
into the fixed label set (the mapper is a total function, so it cannot
panic), and the description function falls back to "unknown conditions"
on unmapped exact codes. -/
theorem weatherCodeToCondition_buckets (code : ℤ) :
    (code = 0 → weatherCodeToCondition code = "Clear") ∧
    (code = 1 → weatherCodeToCondition code = "Mainly Clear") ∧
    (code = 2 ∨ code = 3 → weatherCodeToCondition code = "Clouds") ∧
    (45 ≤ code ∧ code ≤ 49 → weatherCodeToCondition code = "Fog") ∧
    (51 ≤ code ∧ code ≤ 59 → weatherCodeToCondition code = "Drizzle") ∧
    (61 ≤ code ∧ code ≤ 69 → weatherCodeToCondition code = "Rain") ∧
    (71 ≤ code ∧ code ≤ 79 → weatherCodeToCondition code = "Snow") ∧
    (80 ≤ code ∧ code ≤ 82 → weatherCodeToCondition code = "Rain") ∧
    (85 ≤ code ∧ code ≤ 86 → weatherCodeToCondition code = "Snow") ∧
    (95 ≤ code ∧ code ≤ 99 → weatherCodeToCondition code = "Thunderstorm") ∧
    (¬(code = 0 ∨ code = 1 ∨ code = 2 ∨ code = 3 ∨
        (45 ≤ code ∧ code ≤ 49) ∨ (51 ≤ code ∧ code ≤ 59) ∨
        (61 ≤ code ∧ code ≤ 69) ∨ (71 ≤ code ∧ code ≤ 79) ∨
        (80 ≤ code ∧ code ≤ 82) ∨ (85 ≤ code ∧ code ≤ 86) ∨
        (95 ≤ code ∧ code ≤ 99)) →
      weatherCodeToCondition code = "Unknown") ∧
    (0 ≤ code → code ≤ 99 → weatherCodeToCondition code ∈ conditionLabels) ∧
    (code ∉ mappedDescriptionCodes →
      weatherCodeToDescription code = "unknown conditions") := by
  refine ⟨fun h => ?g0, fun h => ?g1, fun h => ?g2, fun h => ?g3,
    fun h => ?g4, fun h => ?g5, fun h => ?g6, fun h => ?g7, fun h => ?g8,
    fun h => ?g9, fun h => ?g10, fun h1 h2 => weatherCodeToCondition_mem code,
    fun h => weatherCodeToDescription_fallback code h⟩
  case g0 => subst h; decide
  case g1 => subst h; decide
  case g2 => rcases h with h | h <;> subst h <;> decide
  all_goals
    unfold weatherCodeToCondition
    split_ifs <;> first | rfl | (exfalso; omega)

/-- C2 (witness). -/
theorem weatherCodeToCondition_buckets_witness :
    weatherCodeToCondition 47 = "Fog" ∧
    weatherCodeToDescription 47 = "unknown conditions" :=
  ⟨(weatherCodeToCondition_buckets 47).2.2.2.1 (by norm_num),
   (weatherCodeToCondition_buckets 47).2.2.2.2.2.2.2.2.2.2.2.2 (by decide)⟩

/-- C3 (counterexample): bearing 44° is labelled "NE", not "N" as the claim
states. -/
theorem windDirection44_not_N :
    windDirectionText 44 = "NE" ∧ windDirectionText 44 ≠ "N" := by
  constructor
  · unfold windDirectionText
    rw [if_neg (by norm_num), if_pos (by norm_num)]
  · unfold windDirectionText
    rw [if_neg (by norm_num), if_pos (by norm_num)]
    decide

/-- Evaluation of `centredSectorPoint`: a bearing within 22.5° of the `k`-th
compass-point centre gets that point. -/
theorem centredSectorPoint_eq (q : ℚ) (k : ℕ) (h1 : (k : ℚ) * 45 - 22.5 ≤ q)
    (h2 : q < (k : ℚ) * 45 + 22.5) :
    centredSectorPoint q = compassPoints.getD (k % 8) "N" := by
  have hr : round (q / 45) = (k : ℤ) := by
    rw [round_eq, Int.floor_eq_iff]
    constructor
    · push_cast
      linarith
    · push_cast
      linarith
  unfold centredSectorPoint
  rw [hr]
  simp

/-- C3 (amended): on the bearing range 0°–359° the wind-direction switch
realises exactly the eight 45°-wide sectors centred on the compass points
(N centred on 0°, wrapping at 360°); bearings 0°, 44° and 46° map to "N",
"NE" and "NE" respectively. -/
theorem windDirectionText_sectors (d : ℤ) (hlo : 0 ≤ d) (hhi : d < 360) :
    windDirectionText d = centredSectorPoint (d : ℚ) ∧
    windDirectionText 0 = "N" ∧ windDirectionText 44 = "NE" ∧
    windDirectionText 46 = "NE" := by
  refine ⟨?main, ?c0, ?c44, ?c46⟩
  case c0 =>
    unfold windDirectionText
    rw [if_pos (by norm_num)]
  case c44 =>
    unfold windDirectionText
    rw [if_neg (by norm_num), if_pos (by norm_num)]
  case c46 =>
    unfold windDirectionText
    rw [if_neg (by norm_num), if_pos (by norm_num)]
  case main =>
    have hcase : (0 ≤ d ∧ d ≤ 22) ∨ (23 ≤ d ∧ d ≤ 67) ∨ (68 ≤ d ∧ d ≤ 112) ∨
        (113 ≤ d ∧ d ≤ 157) ∨ (158 ≤ d ∧ d ≤ 202) ∨ (203 ≤ d ∧ d ≤ 247) ∨
        (248 ≤ d ∧ d ≤ 292) ∨ (293 ≤ d ∧ d ≤ 337) ∨ (338 ≤ d ∧ d ≤ 359) := by
      omega
    rcases hcase with ⟨ha, hb⟩ | ⟨ha, hb⟩ | ⟨ha, hb⟩ | ⟨ha, hb⟩ | ⟨ha, hb⟩ |
      ⟨ha, hb⟩ | ⟨ha, hb⟩ | ⟨ha, hb⟩ | ⟨ha, hb⟩
    · have l : (0 : ℚ) ≤ (d : ℚ) := by exact_mod_cast ha
      have u : (d : ℚ) ≤ 22 := by exact_mod_cast hb
      rw [centredSectorPoint_eq _ 0 (by push_cast; linarith)
        (by push_cast; linarith)]
      unfold windDirectionText
      rw [if_pos (Or.inr (by linarith))]
      decide
    · have l : (23 : ℚ) ≤ (d : ℚ) := by exact_mod_cast ha
      have u : (d : ℚ) ≤ 67 := by exact_mod_cast hb
      rw [centredSectorPoint_eq _ 1 (by push_cast; linarith)
        (by push_cast; linarith)]
      unfold windDirectionText
      rw [if_neg (by rintro (h' | h') <;> linarith),
        if_pos ⟨by linarith, by linarith⟩]
      decide
    · have l : (68 : ℚ) ≤ (d : ℚ) := by exact_mod_cast ha
      have u : (d : ℚ) ≤ 112 := by exact_mod_cast hb
      rw [centredSectorPoint_eq _ 2 (by push_cast; linarith)
        (by push_cast; linarith)]
      unfold windDirectionText
      rw [if_neg (by rintro (h' | h') <;> linarith),
        if_neg (by rintro ⟨h1', h2'⟩; linarith),
        if_pos ⟨by linarith, by linarith⟩]
      decide
    · have l : (113 : ℚ) ≤ (d : ℚ) := by exact_mod_cast ha
      have u : (d : ℚ) ≤ 157 := by exact_mod_cast hb
      rw [centredSectorPoint_eq _ 3 (by push_cast; linarith)
        (by push_cast; linarith)]
      unfold windDirectionText
      rw [if_neg (by rintro (h' | h') <;> linarith),
        if_neg (by rintro ⟨h1', h2'⟩; linarith),
        if_neg (by rintro ⟨h1', h2'⟩; linarith),
        if_pos ⟨by linarith, by linarith⟩]
      decide
    · have l : (158 : ℚ) ≤ (d : ℚ) := by exact_mod_cast ha
      have u : (d : ℚ) ≤ 202 := by exact_mod_cast hb
      rw [centredSectorPoint_eq _ 4 (by push_cast; linarith)
        (by push_cast; linarith)]
      unfold windDirectionText
      rw [if_neg (by rintro (h' | h') <;> linarith),
        if_neg (by rintro ⟨h1', h2'⟩; linarith),
        if_neg (by rintro ⟨h1', h2'⟩; linarith),
        if_neg (by rintro ⟨h1', h2'⟩; linarith),
        if_pos ⟨by linarith, by linarith⟩]
      decide
    · have l : (203 : ℚ) ≤ (d : ℚ) := by exact_mod_cast ha
      have u : (d : ℚ) ≤ 247 := by exact_mod_cast hb
      rw [centredSectorPoint_eq _ 5 (by push_cast; linarith)
        (by push_cast; linarith)]
      unfold windDirectionText
      rw [if_neg (by rintro (h' | h') <;> linarith),
        if_neg (by rintro ⟨h1', h2'⟩; linarith),
        if_neg (by rintro ⟨h1', h2'⟩; linarith),
        if_neg (by rintro ⟨h1', h2'⟩; linarith),
        if_neg (by rintro ⟨h1', h2'⟩; linarith),
        if_pos ⟨by linarith, by linarith⟩]
      decide
    · have l : (248 : ℚ) ≤ (d : ℚ) := by exact_mod_cast ha
      have u : (d : ℚ) ≤ 292 := by exact_mod_cast hb
      rw [centredSectorPoint_eq _ 6 (by push_cast; linarith)
        (by push_cast; linarith)]
      unfold windDirectionText
      rw [if_neg (by rintro (h' | h') <;> linarith),
        if_neg (by rintro ⟨h1', h2'⟩; linarith),
        if_neg (by rintro ⟨h1', h2'⟩; linarith),
        if_neg (by rintro ⟨h1', h2'⟩; linarith),
        if_neg (by rintro ⟨h1', h2'⟩; linarith),
        if_neg (by rintro ⟨h1', h2'⟩; linarith),
        if_pos ⟨by linarith, by linarith⟩]
      decide
    · have l : (293 : ℚ) ≤ (d : ℚ) := by exact_mod_cast ha
      have u : (d : ℚ) ≤ 337 := by exact_mod_cast hb
      rw [centredSectorPoint_eq _ 7 (by push_cast; linarith)
        (by push_cast; linarith)]
      unfold windDirectionText
      rw [if_neg (by rintro (h' | h') <;> linarith),
        if_neg (by rintro ⟨h1', h2'⟩; linarith),
        if_neg (by rintro ⟨h1', h2'⟩; linarith),
        if_neg (by rintro ⟨h1', h2'⟩; linarith),
        if_neg (by rintro ⟨h1', h2'⟩; linarith),
        if_neg (by rintro ⟨h1', h2'⟩; linarith),
        if_neg (by rintro ⟨h1', h2'⟩; linarith)]
      decide
    · have l : (338 : ℚ) ≤ (d : ℚ) := by exact_mod_cast ha
      have u : (d : ℚ) ≤ 359 := by exact_mod_cast hb
      rw [centredSectorPoint_eq _ 8 (by push_cast; linarith)
        (by push_cast; linarith)]
      unfold windDirectionText
      rw [if_pos (Or.inl (by linarith))]
      decide

/-- C3 (witness). -/
theorem windDirectionText_sectors_witness :
    windDirectionText 44 = centredSectorPoint ((44 : ℤ) : ℚ) :=
  (windDirectionText_sectors 44 (by norm_num) (by norm_num)).1

/-- Numeric form of the U.S. AQI category rank, for the monotonicity
proof. -/
def usRank (v : ℤ) : ℕ :=
  if v ≤ 50 then 0 else if v ≤ 100 then 1 else if v ≤ 150 then 2
  else if v ≤ 200 then 3 else if v ≤ 300 then 4 else 5

theorem usCategoryRank_iqairCategory (v : ℤ) :
    usCategoryRank (iqairCategory v) = usRank v := by
  unfold iqairCategory usRank
  split_ifs <;> rfl

/-- C6: the U.S. AQI category thresholds of the primary provider, severity
monotonicity, and the scale-awareness of the secondary provider's 1–5
mapping (value 2 is described as "Fair", not pushed through the U.S.
thresholds, which would give "Good"). -/
theorem aqiCategory_monotone_scale_aware (v w : ℤ) (hvw : v ≤ w) :
    (v ≤ 50 → iqairCategory v = "Good") ∧
    (51 ≤ v ∧ v ≤ 100 → iqairCategory v = "Moderate") ∧
    (101 ≤ v ∧ v ≤ 150 →
      iqairCategory v = "Unhealthy for Sensitive Groups") ∧
    (151 ≤ v ∧ v ≤ 200 → iqairCategory v = "Unhealthy") ∧
    (201 ≤ v ∧ v ≤ 300 → iqairCategory v = "Very Unhealthy") ∧
    (300 < v → iqairCategory v = "Hazardous") ∧
    iqairCategory 45 = "Good" ∧
    iqairCategory 120 = "Unhealthy for Sensitive Groups" ∧
    usCategoryRank (iqairCategory v) ≤ usCategoryRank (iqairCategory w) ∧
    getAQIDescription 2 =
      "Fair (2): Air quality is acceptable; however, for some pollutants there may be a moderate health concern for a very small number of people." ∧
    getAQIDescription 2 ≠ iqairCategory 2 := by
  refine ⟨fun h => ?g1, fun h => ?g2, fun h => ?g3, fun h => ?g4,
    fun h => ?g5, fun h => ?g6, by decide, by decide, ?gmono, by decide,
    by decide⟩
  case gmono =>
    rw [usCategoryRank_iqairCategory, usCategoryRank_iqairCategory]
    unfold usRank
    split_ifs <;> omega
  case g1 =>
    unfold iqairCategory
    rw [if_pos (by omega)]
  case g2 =>
    unfold iqairCategory
    rw [if_neg (by omega), if_pos (by omega)]
  case g3 =>
    unfold iqairCategory
    rw [if_neg (by omega), if_neg (by omega), if_pos (by omega)]
  case g4 =>
    unfold iqairCategory
    rw [if_neg (by omega), if_neg (by omega), if_neg (by omega),
      if_pos (by omega)]
  case g5 =>
    unfold iqairCategory
    rw [if_neg (by omega), if_neg (by omega), if_neg (by omega),
      if_neg (by omega), if_pos (by omega)]
  case g6 =>
    unfold iqairCategory
    rw [if_neg (by omega), if_neg (by omega), if_neg (by omega),
      if_neg (by omega), if_neg (by omega)]

/-- C6 (witness). -/
theorem aqiCategory_monotone_scale_aware_witness :
    usCategoryRank (iqairCategory 45) ≤ usCategoryRank (iqairCategory 120) :=
  (aqiCategory_monotone_scale_aware 45 120 (by norm_num)).2.2.2.2.2.2.2.2.1

/-- C4 (code_bug evidence): the moon-phase label is not periodic with the
synodic month: one day after the reference new moon the label is
"Waxing Crescent", but exactly 29.53 days (2551392 seconds) later it is
"New Moon", because the code reduces the day count modulo 30 days while
dividing by 29.53. -/
theorem moonPhase_not_synodic_periodic :
    moonPhase 947268840 = "Waxing Crescent" ∧
    moonPhase (947268840 + synodicMonthSeconds) = "New Moon" ∧
    moonPhase 947268840 ≠ moonPhase (947268840 + synodicMonthSeconds) := by
  have e1 : moonAge 947268840 = 1 / 29.53 := by
    have h : (daysSinceNewMoon 947268840).tmod 30 = 1 := by decide
    unfold moonAge
    rw [h]
    norm_num
  have e2 : moonAge (947268840 + synodicMonthSeconds) = 0 := by
    have h : (daysSinceNewMoon (947268840 + synodicMonthSeconds)).tmod 30 = 0 := by
      decide
    unfold moonAge
    rw [h]
    norm_num
  have p1 : moonPhase 947268840 = "Waxing Crescent" := by
    unfold moonPhase
    rw [e1, if_neg (by norm_num), if_pos (by norm_num)]
  have p2 : moonPhase (947268840 + synodicMonthSeconds) = "New Moon" := by
    unfold moonPhase
    rw [e2, if_pos (by norm_num)]
  refine ⟨p1, p2, ?_⟩
  rw [p1, p2]
  decide

/-! ### Shared concrete sample data and lookup helpers -/

/-- A concrete snapshot: a rainy London reading one day after the moon
reference epoch, with no sunrise/sunset, precipitation, or AQI data. -/
def sampleWeather : WeatherResponse where
  weather := [⟨61, "Rain", "slight rain", ""⟩]
  main := ⟨10, 9, 0, 0, 0, 90⟩
  wind := ⟨5, 44, 0⟩
  clouds := 80
  rain := ⟨0, 0⟩
  snow := ⟨0, 0⟩
  visibility := 0
  name := "London"
  sys := ⟨"GB", 0, 0⟩
  timezone := 0
  dt := 947268840
  isDay := 1
  aqiList := []
  iqairData := IQAirData.zero

/-- A concrete OpenWeatherMap air-pollution entry (scale value 2). -/
def sampleAQIEntry : AQIEntry := ⟨2, ⟨0, 0, 0, 0, 0, 0, 0, 0⟩⟩

theorem lookup_cons_eq (k : String) (v : JVal) (t : List (String × JVal)) :
    ((k, v) :: t).lookup k = some v := by
  simp [List.lookup]

theorem lookup_cons_ne (k k' : String) (v : JVal) (t : List (String × JVal))
    (h : (k == k') = false) : ((k', v) :: t).lookup k = t.lookup k := by
  simp [List.lookup, h]

theorem lookup_nil (k : String) :
    ([] : List (String × JVal)).lookup k = none := rfl

theorem lookup_cons_eq' (k k' : String) (v : JVal)
    (t : List (String × JVal)) (h : (k == k') = true) :
    ((k', v) :: t).lookup k = some v := by
  simp [List.lookup, h]

theorem lookup_append_none (k : String) (l₁ l₂ : List (String × JVal))
    (h : l₁.lookup k = none) : (l₁ ++ l₂).lookup k = l₂.lookup k := by
  induction l₁ with
  | nil => rfl
  | cons a t ih =>
    obtain ⟨k', v⟩ := a
    by_cases hk : (k == k') = true
    · rw [lookup_cons_eq' k k' v _ hk] at h
      exact absurd h (by simp)
    · rw [List.cons_append, lookup_cons_ne k k' v _ (by simpa using hk)]
      rw [lookup_cons_ne k k' v _ (by simpa using hk)] at h
      exact ih h

theorem lookup_append_some (k : String) (l₁ l₂ : List (String × JVal))
    (v : JVal) (h : l₁.lookup k = some v) : (l₁ ++ l₂).lookup k = some v := by
  induction l₁ with
  | nil => exact absurd h (by simp [List.lookup])
  | cons a t ih =>
    obtain ⟨k', v'⟩ := a
    by_cases hk : (k == k') = true
    · rw [lookup_cons_eq' k k' v' _ hk] at h
      rw [List.cons_append, lookup_cons_eq' k k' v' _ hk]
      exact h
    · rw [List.cons_append, lookup_cons_ne k k' v' _ (by simpa using hk)]
      rw [lookup_cons_ne k k' v' _ (by simpa using hk)] at h
      exact ih h

/-- The AQI block never carries the keys used by the later conditional
blocks. -/
theorem aqiFields_lookup_none (w : WeatherResponse) (k : String)
    (h1 : (k == "aqi") = false) (h2 : (k == "aqi_description") = false)
    (h3 : (k == "aqi_source") = false) (h4 : (k == "pollutant_name") = false)
    (h5 : (k == "pollutant_value") = false) (h6 : (k == "pm2_5") = false)
    (h7 : (k == "pm10") = false) (h8 : (k == "co") = false)
    (h9 : (k == "no2") = false) (h10 : (k == "o3") = false)
    (h11 : (k == "so2") = false) : (aqiFields w).lookup k = none := by
  unfold aqiFields
  split_ifs
  · rw [lookup_cons_ne _ _ _ _ h1, lookup_cons_ne _ _ _ _ h2,
      lookup_cons_ne _ _ _ _ h3, lookup_cons_ne _ _ _ _ h4,
      lookup_cons_ne _ _ _ _ h5, lookup_cons_ne _ _ _ _ h6,
      lookup_cons_ne _ _ _ _ h7]
    rfl
  · cases hw : w.aqiList.head?
    · rfl
    · rw [lookup_cons_ne _ _ _ _ h1, lookup_cons_ne _ _ _ _ h2,
        lookup_cons_ne _ _ _ _ h3, lookup_cons_ne _ _ _ _ h8,
        lookup_cons_ne _ _ _ _ h9, lookup_cons_ne _ _ _ _ h10,
        lookup_cons_ne _ _ _ _ h11, lookup_cons_ne _ _ _ _ h6,
        lookup_cons_ne _ _ _ _ h7]
      rfl

/-- The heat-index block carries only the key "heat_index". -/
theorem heatIndexFields_lookup_none (units : String) (w : WeatherResponse)
    (k : String) (h : (k == "heat_index") = false) :
    (heatIndexFields units w).lookup k = none := by
  unfold heatIndexFields
  split_ifs
  · rw [lookup_cons_ne _ _ _ _ h]
    rfl
  · rfl

/-- The precipitation block carries only the four rain/snow keys. -/
theorem precipFields_lookup_none (w : WeatherResponse) (k : String)
    (h1 : (k == "rain_1h") = false) (h2 : (k == "rain_3h") = false)
    (h3 : (k == "snow_1h") = false) (h4 : (k == "snow_3h") = false) :
    (precipFields w).lookup k = none := by
  unfold precipFields
  split_ifs <;>
    simp only [List.append_nil, List.nil_append, List.cons_append,
      lookup_cons_ne _ _ _ _ h1, lookup_cons_ne _ _ _ _ h2,
      lookup_cons_ne _ _ _ _ h3, lookup_cons_ne _ _ _ _ h4,
      lookup_nil]

/-- C5 (counterexample): with the IQAir key configured and the IQAir call
failing, the OpenWeatherMap provider is never consulted and the snapshot is
left without any AQI data, even though OpenWeatherMap data was available. -/
theorem aqi_secondary_skipped_on_primary_failure :
    AQIProvider.openWeatherMap ∉
      (fetchAQIStep true none (some [sampleAQIEntry]) sampleWeather).1 ∧
    (fetchAQIStep true none (some [sampleAQIEntry]) sampleWeather).2 =
      sampleWeather := by
  constructor
  · simp [fetchAQIStep]
  · simp [fetchAQIStep, fetchIQAirData]

/-- C5 (amended): the AQI branch of `fetchWeather` consults the secondary
(OpenWeatherMap) provider exactly when no IQAir key is configured; when the
key is configured and the IQAir call fails, the snapshot is returned with
no AQI reading and the secondary provider is not consulted. -/
theorem aqi_secondary_consulted_iff_no_key (key : Bool)
    (iq : Option IQAirPollution) (owm : Option (List AQIEntry))
    (w : WeatherResponse) :
    (AQIProvider.openWeatherMap ∈ (fetchAQIStep key iq owm w).1 ↔
      key = false) ∧
    (key = true → iq = none → (fetchAQIStep key iq owm w).2 = w) := by
  cases key
  · constructor
    · simp [fetchAQIStep]
    · intro h
      exact absurd h (by simp)
  · constructor
    · simp [fetchAQIStep]
    · intro _ hiq
      subst hiq
      simp [fetchAQIStep, fetchIQAirData]

/-- C5 (witness). -/
theorem aqi_secondary_consulted_iff_no_key_witness :
    AQIProvider.openWeatherMap ∈
      (fetchAQIStep false none none sampleWeather).1 ∧
    (fetchAQIStep true none none sampleWeather).2 = sampleWeather :=
  ⟨(aqi_secondary_consulted_iff_no_key false none none sampleWeather).1.mpr
      rfl,
   (aqi_secondary_consulted_iff_no_key true none none sampleWeather).2 rfl
      rfl⟩

/-- C8: the reverse-geocoding chain tries BigDataCloud, then Nominatim,
then the static city table, each later stage only when every earlier stage
produced an empty or "Location …" placeholder name; when the static table
also has no city within radius, the result is the coordinate-synthesized
placeholder with country "Unknown". -/
theorem reverseGeocode_fallback_chain (bdc : Option BDCResponse)
    (nom : Option NominatimAddress) (lat lon : ℚ) :
    (geoAccept (tryBigDataCloudGeocode bdc).1 = true →
      reverseGeocode bdc nom lat lon =
        ([.bigDataCloud], tryBigDataCloudGeocode bdc)) ∧
    (geoAccept (tryBigDataCloudGeocode bdc).1 = false →
      geoAccept (tryNominatimGeocode nom).1 = true →
      reverseGeocode bdc nom lat lon =
        ([.bigDataCloud, .nominatim], tryNominatimGeocode nom)) ∧
    (geoAccept (tryBigDataCloudGeocode bdc).1 = false →
      geoAccept (tryNominatimGeocode nom).1 = false →
      reverseGeocode bdc nom lat lon =
        ([.bigDataCloud, .nominatim, .staticTable],
          guessLocationFromCoordinates lat lon)) ∧
    (knownCities.find? (cityMatch lat lon) = none →
      guessLocationFromCoordinates lat lon =
        (coordLabel lat lon, "Unknown")) := by
  refine ⟨fun h1 => ?_, fun h1 h2 => ?_, fun h1 h2 => ?_, fun h => ?_⟩
  · simp only [reverseGeocode]
    rw [if_pos h1]
  · simp only [reverseGeocode]
    rw [if_neg (by simp [h1]), if_pos h2]
  · simp only [reverseGeocode]
    rw [if_neg (by simp [h1]), if_neg (by simp [h2])]
  · simp only [guessLocationFromCoordinates, h]

/-- C8 (witness): with both providers failing and coordinates (0, 0) (in
no table city's radius), the chain runs all three stages and synthesizes a
coordinate label with country "Unknown". -/
theorem reverseGeocode_fallback_chain_witness :
    reverseGeocode none none 0 0 =
      ([.bigDataCloud, .nominatim, .staticTable],
        (coordLabel 0 0, "Unknown")) := by
  have hfind : knownCities.find? (cityMatch 0 0) = none := by
    rw [List.find?_eq_none]
    intro c hc
    fin_cases hc <;>
      · simp only [cityMatch, decide_eq_true_eq]
        norm_num
  have h3 := (reverseGeocode_fallback_chain none none 0 0).2.2.1 rfl rfl
  have h4 := (reverseGeocode_fallback_chain none none 0 0).2.2.2 hfind
  rw [h3, h4]

/-- C10: `update` leaves the whole agent state untouched when the weather
fetch fails, and leaves the stored message and its timestamp untouched when
message generation fails (the fetched snapshot having already been pushed
onto the history). -/
theorem update_atomic_on_error (s : AgentState) (env : UpdateEnv) :
    (env.fetchResult = none → update s env = s) ∧
    (∀ w : WeatherResponse, env.fetchResult = some w →
      env.genResult = none →
      update s env =
        { s with weatherHistory := pushHistory s.weatherHistory w }) := by
  constructor
  · intro h
    simp [update, h]
  · intro w hf hg
    simp [update, hf, hg]

/-- C10 (witness). -/
theorem update_atomic_on_error_witness :
    update ⟨[], "hello", 0⟩ ⟨none, none, none, 5⟩ = ⟨[], "hello", 0⟩ ∧
    update ⟨[], "hello", 0⟩ ⟨some sampleWeather, none, none, 5⟩ =
      ⟨pushHistory [] sampleWeather, "hello", 0⟩ :=
  ⟨(update_atomic_on_error ⟨[], "hello", 0⟩ ⟨none, none, none, 5⟩).1 rfl,
   (update_atomic_on_error ⟨[], "hello", 0⟩
      ⟨some sampleWeather, none, none, 5⟩).2 sampleWeather rfl rfl⟩

theorem dropWhile_length_le (p : Char → Bool) (l : List Char) :
    (l.dropWhile p).length ≤ l.length := by
  induction l with
  | nil => simp
  | cons a t ih =>
    rw [List.dropWhile_cons]
    split
    · exact Nat.le_succ_of_le ih
    · simp

/-- Trimming a message prefixed with "[…] " always yields a strictly longer
result than trimming the message itself: the prefix starts with a
non-whitespace character. -/
theorem trimL_tag_length (ts m : List Char) :
    (trimL m).length < (trimL ('[' :: (ts ++ ']' :: ' ' :: m))).length := by
  have hsp1 : isGoSpace '[' = false := rfl
  have hsp2 : isGoSpace ']' = false := rfl
  have hsp3 : isGoSpace ' ' = true := rfl
  have hrev : ('[' :: (ts ++ ']' :: ' ' :: m)).reverse
      = m.reverse ++ ' ' :: ']' :: (ts.reverse ++ ['[']) := by
    simp
  by_cases hm : ((m.reverse.dropWhile isGoSpace).isEmpty : Prop)
  · have htm : trimL m = [] := by
      have hm' : m.reverse.dropWhile isGoSpace = [] := by simpa using hm
      rw [trimL, rtrimL, hm']
      rfl
    have hfull : trimL ('[' :: (ts ++ ']' :: ' ' :: m)) =
        '[' :: (ts ++ [']']) := by
      rw [trimL, rtrimL, hrev, List.dropWhile_append, if_pos hm,
        List.dropWhile_cons_of_pos hsp3,
        List.dropWhile_cons_of_neg (by simp [hsp2]),
        show ((']' : Char) :: (ts.reverse ++ ['['])).reverse =
          '[' :: (ts ++ [']']) from by simp,
        ltrimL, List.dropWhile_cons_of_neg (by simp [hsp1])]
    rw [htm, hfull]
    simp
  · have hfull : trimL ('[' :: (ts ++ ']' :: ' ' :: m)) =
        '[' :: (ts ++ ']' :: ' ' :: rtrimL m) := by
      rw [trimL, rtrimL, hrev, List.dropWhile_append, if_neg hm,
        show ((m.reverse.dropWhile isGoSpace) ++
            ' ' :: ']' :: (ts.reverse ++ ['['])).reverse =
          '[' :: (ts ++ ']' :: ' ' :: (m.reverse.dropWhile isGoSpace).reverse)
          from by simp,
        ltrimL, List.dropWhile_cons_of_neg (by simp [hsp1])]
      rfl
    have hlen : (trimL m).length ≤ (rtrimL m).length := by
      rw [trimL]
      exact dropWhile_length_le _ _
    rw [hfull]
    simp only [List.length_cons, List.length_append]
    omega

/-- The timestamp-prefixed message never trims to the previously stored
text. -/
theorem trimSpace_tag_ne (ts m last : String)
    (h : trimSpace m = trimSpace last) :
    trimSpace ("[" ++ ts ++ "] " ++ m) ≠ trimSpace last := by
  intro he
  have he' : trimSpace ("[" ++ ts ++ "] " ++ m) = trimSpace m := he.trans h.symm
  have hdata : ("[" ++ ts ++ "] " ++ m).data =
      '[' :: (ts.data ++ ']' :: ' ' :: m.data) := by
    simp [String.data_append]
  have hlists : trimL ('[' :: (ts.data ++ ']' :: ' ' :: m.data)) =
      trimL m.data := by
    have := congrArg String.data he'
    simpa [trimSpace, hdata] using this
  have := trimL_tag_length ts.data m.data
  rw [hlists] at this
  omega

/-- C7: whenever the freshly generated message trims to the previously
stored one, the message stored by `update` trims to something different —
either the retry text (which was accepted only if different) or the
timestamp-prefixed message (which is strictly longer after trimming). -/
theorem dedup_stored_message_differs (s : AgentState) (env : UpdateEnv)
    (w : WeatherResponse) (msg : String)
    (hf : env.fetchResult = some w) (hg : env.genResult = some msg)
    (hdup : trimSpace msg = trimSpace s.lastMessage) :
    trimSpace (update s env).lastMessage ≠ trimSpace s.lastMessage := by
  have hup : (update s env).lastMessage =
      dedupMessage s.lastMessage msg env.retryResult (messageStamp w) := by
    simp [update, hf, hg]
  rw [hup]
  unfold dedupMessage
  rw [if_pos hdup]
  cases hr : env.retryResult with
  | none => exact trimSpace_tag_ne _ _ _ hdup
  | some varied =>
    dsimp only
    by_cases hv : trimSpace varied ≠ trimSpace s.lastMessage
    · rw [if_pos hv]
      exact hv
    · rw [if_neg hv]
      exact trimSpace_tag_ne _ _ _ hdup

/-- C7 (witness): a tick that regenerates the stored text "hello" with a
failing retry stores a message that no longer trims to "hello". -/
theorem dedup_stored_message_differs_witness :
    trimSpace (update ⟨[], "hello", 0⟩
        ⟨some sampleWeather, some "hello", none, 5⟩).lastMessage ≠
      trimSpace "hello" :=
  dedup_stored_message_differs ⟨[], "hello", 0⟩
    ⟨some sampleWeather, some "hello", none, 5⟩ sampleWeather "hello"
    rfl rfl rfl

/-- The Rothfusz polynomial at 80°F exceeds 77 for any nonnegative
humidity. -/
theorem rothfusz_at80_gt (h : ℚ) (hh : 0 ≤ h) : 77 < rothfusz 80 h := by
  have key : rothfusz 80 h =
      77.7801064 + 0.02683447 * h + 0.00067243 * (h * h) := by
    unfold rothfusz; ring
  nlinarith [mul_nonneg hh hh]

/-- The Rothfusz polynomial exceeds 77 on the whole activation region
(temperature above 80°F, humidity in (40, 100]). -/
theorem rothfusz_gt (t h : ℚ) (ht : 80 < t) (h40 : 40 < h) (h100 : h ≤ 100) :
    77 < rothfusz t h := by
  have hc2 : 0 < -0.00683783 + 0.00122874 * h - 0.00000199 * (h * h) := by
    nlinarith [mul_nonneg (le_of_lt (sub_pos.2 h40)) (sub_nonneg.2 h100)]
  have hfac : 0 < 160 * (-0.00683783 + 0.00122874 * h - 0.00000199 * (h * h)) +
      (2.04901523 - 0.22475541 * h + 0.00085282 * (h * h)) := by
    nlinarith [sq_nonneg (h - 40)]
  have hfac2 : 0 <
      (-0.00683783 + 0.00122874 * h - 0.00000199 * (h * h)) * (t + 80) +
      (2.04901523 - 0.22475541 * h + 0.00085282 * (h * h)) := by
    nlinarith [mul_nonneg hc2.le (by linarith : (0:ℚ) ≤ t - 80)]
  have key : rothfusz t h = rothfusz 80 h + (t - 80) *
      ((-0.00683783 + 0.00122874 * h - 0.00000199 * (h * h)) * (t + 80) +
       (2.04901523 - 0.22475541 * h + 0.00085282 * (h * h))) := by
    unfold rothfusz; ring
  have hbase := rothfusz_at80_gt h (by linarith)
  nlinarith [mul_pos (by linarith : (0:ℚ) < t - 80) hfac2]

/-- On the activation region with a plausible humidity percentage, the
stored heat index is strictly positive in both unit systems. -/
theorem heatIndexValue_pos (units : String) (temp : ℚ) (humidity : ℤ)
    (hcond : tempFahrenheit units temp > 80 ∧ humidity > 40)
    (hhum : humidity ≤ 100) :
    0 < heatIndexValue units temp humidity := by
  have hh40 : (40 : ℚ) < (humidity : ℚ) := by exact_mod_cast hcond.2
  have hh100 : ((humidity : ℚ)) ≤ 100 := by exact_mod_cast hhum
  have hro := rothfusz_gt (tempFahrenheit units temp) (humidity : ℚ)
    hcond.1 hh40 hh100
  unfold heatIndexValue
  rw [if_pos hcond]
  split_ifs
  · linarith
  · linarith

/-- Outside the activation region the heat index stays at the Go zero
value. -/
theorem heatIndexValue_zero (units : String) (temp : ℚ) (humidity : ℤ)
    (hcond : ¬(tempFahrenheit units temp > 80 ∧ humidity > 40)) :
    heatIndexValue units temp humidity = 0 := by
  unfold heatIndexValue
  rw [if_neg hcond]

/-- On the activation region the heat index is the Rothfusz value,
converted back to Celsius in metric mode. -/
theorem heatIndexValue_eq (units : String) (temp : ℚ) (humidity : ℤ)
    (hcond : tempFahrenheit units temp > 80 ∧ humidity > 40) :
    heatIndexValue units temp humidity =
      if units = "metric" then
        (rothfusz (tempFahrenheit units temp) (humidity : ℚ) - 32) * 5 / 9
      else rothfusz (tempFahrenheit units temp) (humidity : ℚ) := by
  unfold heatIndexValue
  rw [if_pos hcond]

/-- The "heat_index" key of the output map is governed exactly by the
positivity test `heatIndex > 0` of `prepareWeatherData`. -/
theorem prepareWeatherData_lookup_heat (units : String)
    (w : WeatherResponse) :
    (prepareWeatherData units w).lookup "heat_index" =
      if heatIndexValue units w.main.temp w.main.humidity > 0 then
        some (.str (fmtFixed 1 (heatIndexValue units w.main.temp
          w.main.humidity) ++ getTempUnit units))
      else none := by
  unfold prepareWeatherData
  rw [lookup_append_none _ _ _ (by rfl),
    lookup_append_none _ _ _ (aqiFields_lookup_none w "heat_index" rfl rfl
      rfl rfl rfl rfl rfl rfl rfl rfl rfl)]
  unfold heatIndexFields
  split_ifs with h
  · rw [lookup_append_some _ _ _ _ (lookup_cons_eq _ _ _)]
  · rw [List.nil_append,
      lookup_append_none _ _ _ (precipFields_lookup_none w "heat_index" rfl
        rfl rfl rfl)]
    rfl

/-- The "rain_1h" key is present exactly when the one-hour rain amount is
positive. -/
theorem prepareWeatherData_lookup_rain1h (units : String)
    (w : WeatherResponse) :
    (prepareWeatherData units w).lookup "rain_1h" =
      if w.rain.oneHour > 0 then
        some (.str (fmtFixed 1 w.rain.oneHour ++ " mm"))
      else none := by
  unfold prepareWeatherData
  rw [lookup_append_none _ _ _ (by rfl),
    lookup_append_none _ _ _ (aqiFields_lookup_none w "rain_1h" rfl rfl rfl
      rfl rfl rfl rfl rfl rfl rfl rfl),
    lookup_append_none _ _ _ (heatIndexFields_lookup_none units w "rain_1h"
      rfl)]
  unfold precipFields
  split_ifs <;> rfl

/-- The "rain_3h" key is present exactly when the three-hour rain amount is
positive. -/
theorem prepareWeatherData_lookup_rain3h (units : String)
    (w : WeatherResponse) :
    (prepareWeatherData units w).lookup "rain_3h" =
      if w.rain.threeHours > 0 then
        some (.str (fmtFixed 1 w.rain.threeHours ++ " mm"))
      else none := by
  unfold prepareWeatherData
  rw [lookup_append_none _ _ _ (by rfl),
    lookup_append_none _ _ _ (aqiFields_lookup_none w "rain_3h" rfl rfl rfl
      rfl rfl rfl rfl rfl rfl rfl rfl),
    lookup_append_none _ _ _ (heatIndexFields_lookup_none units w "rain_3h"
      rfl)]
  unfold precipFields
  split_ifs <;> rfl

/-- The "snow_1h" key is present exactly when the one-hour snow amount is
positive. -/
theorem prepareWeatherData_lookup_snow1h (units : String)
    (w : WeatherResponse) :
    (prepareWeatherData units w).lookup "snow_1h" =
      if w.snow.oneHour > 0 then
        some (.str (fmtFixed 1 w.snow.oneHour ++ " mm"))
      else none := by
  unfold prepareWeatherData
  rw [lookup_append_none _ _ _ (by rfl),
    lookup_append_none _ _ _ (aqiFields_lookup_none w "snow_1h" rfl rfl rfl
      rfl rfl rfl rfl rfl rfl rfl rfl),
    lookup_append_none _ _ _ (heatIndexFields_lookup_none units w "snow_1h"
      rfl)]
  unfold precipFields
  split_ifs <;> rfl

/-- The "snow_3h" key is present exactly when the three-hour snow amount is
positive. -/
theorem prepareWeatherData_lookup_snow3h (units : String)
    (w : WeatherResponse) :
    (prepareWeatherData units w).lookup "snow_3h" =
      if w.snow.threeHours > 0 then
        some (.str (fmtFixed 1 w.snow.threeHours ++ " mm"))
      else none := by
  unfold prepareWeatherData
  rw [lookup_append_none _ _ _ (by rfl),
    lookup_append_none _ _ _ (aqiFields_lookup_none w "snow_3h" rfl rfl rfl
      rfl rfl rfl rfl rfl rfl rfl rfl),
    lookup_append_none _ _ _ (heatIndexFields_lookup_none units w "snow_3h"
      rfl)]
  unfold precipFields
  split_ifs <;> rfl

/-- The "aqi" key follows the IQAir-then-OpenWeatherMap data fallback of
`prepareWeatherData`. -/
theorem prepareWeatherData_lookup_aqi (units : String) (w : WeatherResponse) :
    (prepareWeatherData units w).lookup "aqi" =
      if w.iqairData.aqi > 0 then some (.int w.iqairData.aqi)
      else
        match w.aqiList.head? with
        | some e => some (.int e.aqi)
        | none => none := by
  unfold prepareWeatherData
  rw [lookup_append_none _ _ _ (by rfl)]
  unfold aqiFields
  split_ifs with h
  · rw [lookup_append_some _ _ _ _ (lookup_cons_eq _ _ _)]
  · cases hl : w.aqiList.head? with
    | some e =>
      dsimp only
      rw [lookup_append_some _ _ _ _ (lookup_cons_eq _ _ _)]
    | none =>
      dsimp only
      rw [List.nil_append,
        lookup_append_none _ _ _ (heatIndexFields_lookup_none units w "aqi"
          rfl),
        lookup_append_none _ _ _ (precipFields_lookup_none w "aqi" rfl rfl
          rfl rfl)]
      rfl

/-- The "aqi_description" key follows the same data fallback. -/
theorem prepareWeatherData_lookup_aqiDescription (units : String)
    (w : WeatherResponse) :
    (prepareWeatherData units w).lookup "aqi_description" =
      if w.iqairData.aqi > 0 then some (.str w.iqairData.category)
      else
        match w.aqiList.head? with
        | some e => some (.str (getAQIDescription e.aqi))
        | none => none := by
  unfold prepareWeatherData
  rw [lookup_append_none _ _ _ (by rfl)]
  unfold aqiFields
  split_ifs with h
  · rw [lookup_append_some _ _ _ _
      (by rw [lookup_cons_ne "aqi_description" "aqi" _ _ rfl]
          exact lookup_cons_eq _ _ _)]
  · cases hl : w.aqiList.head? with
    | some e =>
      dsimp only
      rw [lookup_append_some _ _ _ _
        (by rw [lookup_cons_ne "aqi_description" "aqi" _ _ rfl]
            exact lookup_cons_eq _ _ _)]
    | none =>
      dsimp only
      rw [List.nil_append,
        lookup_append_none _ _ _ (heatIndexFields_lookup_none units w
          "aqi_description" rfl),
        lookup_append_none _ _ _ (precipFields_lookup_none w
          "aqi_description" rfl rfl rfl rfl)]
      rfl

/-- The "aqi_source" key carries the provider tag and follows the same data
fallback. -/
theorem prepareWeatherData_lookup_aqiSource (units : String)
    (w : WeatherResponse) :
    (prepareWeatherData units w).lookup "aqi_source" =
      if w.iqairData.aqi > 0 then some (.str "IQAir")
      else
        match w.aqiList.head? with
        | some _ => some (.str "OpenWeatherMap")
        | none => none := by
  unfold prepareWeatherData
  rw [lookup_append_none _ _ _ (by rfl)]
  unfold aqiFields
  split_ifs with h
  · rw [lookup_append_some _ _ _ _
      (by rw [lookup_cons_ne "aqi_source" "aqi" _ _ rfl,
            lookup_cons_ne "aqi_source" "aqi_description" _ _ rfl]
          exact lookup_cons_eq _ _ _)]
  · cases hl : w.aqiList.head? with
    | some _ =>
      dsimp only
      rw [lookup_append_some _ _ _ _
        (by rw [lookup_cons_ne "aqi_source" "aqi" _ _ rfl,
              lookup_cons_ne "aqi_source" "aqi_description" _ _ rfl]
            exact lookup_cons_eq _ _ _)]
    | none =>
      dsimp only
      rw [List.nil_append,
        lookup_append_none _ _ _ (heatIndexFields_lookup_none units w
          "aqi_source" rfl),
        lookup_append_none _ _ _ (precipFields_lookup_none w "aqi_source"
          rfl rfl rfl rfl)]
      rfl

/-- The "sunrise", "sunset" and "day_length" keys are unconditionally
present in the base map. -/
theorem prepareWeatherData_lookup_sun (units : String)
    (w : WeatherResponse) :
    (prepareWeatherData units w).lookup "sunrise" =
      some (.str (sunriseStr w)) ∧
    (prepareWeatherData units w).lookup "sunset" =
      some (.str (sunsetStr w)) ∧
    (prepareWeatherData units w).lookup "day_length" =
      some (.str (fmtFixed 1 (dayLengthHours w) ++ " hours")) := by
  unfold prepareWeatherData
  exact ⟨lookup_append_some _ _ _ _ (by rfl),
    lookup_append_some _ _ _ _ (by rfl),
    lookup_append_some _ _ _ _ (by rfl)⟩

/-- A concrete hot, humid snapshot (30°C, 50% humidity — the spec's
example). -/
def hotSampleWeather : WeatherResponse :=
  { sampleWeather with main := ⟨30, 30, 0, 0, 1013, 50⟩ }

/-- C1: with a plausible humidity percentage (≤ 100), the heat-index field
of the output map is present iff the Fahrenheit-equivalent temperature
exceeds 80 and the humidity exceeds 40; when present its value is the
formatted Rothfusz regression (converted back to Celsius in metric mode),
and otherwise the key is entirely absent. -/
theorem heatIndex_present_iff (units : String) (w : WeatherResponse)
    (hhum : w.main.humidity ≤ 100) :
    (((prepareWeatherData units w).lookup "heat_index").isSome ↔
      (tempFahrenheit units w.main.temp > 80 ∧ w.main.humidity > 40)) ∧
    (tempFahrenheit units w.main.temp > 80 ∧ w.main.humidity > 40 →
      (prepareWeatherData units w).lookup "heat_index" =
        some (.str (fmtFixed 1 (if units = "metric" then
            (rothfusz (tempFahrenheit units w.main.temp)
              (w.main.humidity : ℚ) - 32) * 5 / 9
          else rothfusz (tempFahrenheit units w.main.temp)
            (w.main.humidity : ℚ)) ++ getTempUnit units))) ∧
    (¬(tempFahrenheit units w.main.temp > 80 ∧ w.main.humidity > 40) →
      (prepareWeatherData units w).lookup "heat_index" = none) := by
  have hlk := prepareWeatherData_lookup_heat units w
  refine ⟨⟨fun hs => ?_, fun hc => ?_⟩, fun hc => ?_, fun hnc => ?_⟩
  · by_contra hnc
    rw [hlk, heatIndexValue_zero units _ _ hnc] at hs
    simp at hs
  · rw [hlk, if_pos (heatIndexValue_pos units _ _ hc hhum)]
    rfl
  · rw [hlk, if_pos (heatIndexValue_pos units _ _ hc hhum),
      heatIndexValue_eq units _ _ hc]
  · rw [hlk,
      if_neg (by rw [heatIndexValue_zero units _ _ hnc]; exact lt_irrefl 0)]

/-- C1 (witness): 30°C at 50% humidity (86°F) carries a heat index; 10°C at
90% humidity does not. -/
theorem heatIndex_present_iff_witness :
    ((prepareWeatherData "metric" hotSampleWeather).lookup
      "heat_index").isSome ∧
    (prepareWeatherData "metric" sampleWeather).lookup "heat_index" =
      none := by
  have ht : tempFahrenheit "metric" hotSampleWeather.main.temp > 80 := by
    show tempFahrenheit "metric" 30 > 80
    unfold tempFahrenheit
    rw [if_pos rfl]
    norm_num
  have htf : tempFahrenheit "metric" sampleWeather.main.temp = 50 := by
    show tempFahrenheit "metric" 10 = 50
    unfold tempFahrenheit
    rw [if_pos rfl]
    norm_num
  exact ⟨(heatIndex_present_iff "metric" hotSampleWeather (by decide)).1.mpr
      ⟨ht, by decide⟩,
    (heatIndex_present_iff "metric" sampleWeather (by decide)).2.2
      (fun hc => by rw [htf] at hc; norm_num at hc)⟩

/-- C9 (counterexample): for a snapshot without sunrise/sunset data, the
"sunrise" key is still emitted — as an empty string — and "day_length" is
emitted as "0.0 hours", contradicting the omit-when-unavailable claim. -/
theorem sunrise_emitted_when_unavailable :
    sampleWeather.sys.sunrise = 0 ∧ sampleWeather.sys.sunset = 0 ∧
    (prepareWeatherData "metric" sampleWeather).lookup "sunrise" =
      some (.str "") ∧
    (prepareWeatherData "metric" sampleWeather).lookup "day_length" =
      some (.str "0.0 hours") := by
  refine ⟨rfl, rfl, ?_, ?_⟩
  · rw [(prepareWeatherData_lookup_sun "metric" sampleWeather).1]
    rfl
  · rw [(prepareWeatherData_lookup_sun "metric" sampleWeather).2.2]
    have h0 : dayLengthHours sampleWeather = 0 := rfl
    have hf : fmtFixed 1 (0 : ℚ) = "0.0" := by
      unfold fmtFixed roundHalfEven
      norm_num
      rfl
    rw [h0, hf]
    rfl

/-- C9 (amended): the rain/snow, heat-index and AQI fields are omitted from
the map exactly when the corresponding data is unavailable, but the
sunrise, sunset and day-length fields are always present — carrying an
empty string (resp. a zero day length) when sunrise/sunset data is
unavailable. -/
theorem optional_fields_policy (units : String) (w : WeatherResponse) :
    ((prepareWeatherData units w).lookup "rain_1h" = none ↔
      ¬w.rain.oneHour > 0) ∧
    ((prepareWeatherData units w).lookup "rain_3h" = none ↔
      ¬w.rain.threeHours > 0) ∧
    ((prepareWeatherData units w).lookup "snow_1h" = none ↔
      ¬w.snow.oneHour > 0) ∧
    ((prepareWeatherData units w).lookup "snow_3h" = none ↔
      ¬w.snow.threeHours > 0) ∧
    ((prepareWeatherData units w).lookup "heat_index" = none ↔
      ¬heatIndexValue units w.main.temp w.main.humidity > 0) ∧
    (((prepareWeatherData units w).lookup "aqi").isSome ↔
      (w.iqairData.aqi > 0 ∨ w.aqiList ≠ [])) ∧
    (((prepareWeatherData units w).lookup "aqi_description").isSome ↔
      (w.iqairData.aqi > 0 ∨ w.aqiList ≠ [])) ∧
    (((prepareWeatherData units w).lookup "aqi_source").isSome ↔
      (w.iqairData.aqi > 0 ∨ w.aqiList ≠ [])) ∧
    ((prepareWeatherData units w).lookup "sunrise" =
      some (.str (sunriseStr w))) ∧
    ((prepareWeatherData units w).lookup "sunset" =
      some (.str (sunsetStr w))) ∧
    ((prepareWeatherData units w).lookup "day_length" =
      some (.str (fmtFixed 1 (dayLengthHours w) ++ " hours"))) ∧
    (¬(w.sys.sunrise > 0 ∧ w.sys.sunset > 0) →
      sunriseStr w = "" ∧ sunsetStr w = "" ∧ dayLengthHours w = 0) := by
  refine ⟨?_, ?_, ?_, ?_, ?_, ?_, ?_, ?_,
    (prepareWeatherData_lookup_sun units w).1,
    (prepareWeatherData_lookup_sun units w).2.1,
    (prepareWeatherData_lookup_sun units w).2.2, fun h => ?_⟩
  · rw [prepareWeatherData_lookup_rain1h]
    by_cases hc : w.rain.oneHour > 0 <;> simp [hc]
  · rw [prepareWeatherData_lookup_rain3h]
    by_cases hc : w.rain.threeHours > 0 <;> simp [hc]
  · rw [prepareWeatherData_lookup_snow1h]
    by_cases hc : w.snow.oneHour > 0 <;> simp [hc]
  · rw [prepareWeatherData_lookup_snow3h]
    by_cases hc : w.snow.threeHours > 0 <;> simp [hc]
  · rw [prepareWeatherData_lookup_heat]
    by_cases hc : heatIndexValue units w.main.temp w.main.humidity > 0 <;>
      simp [hc]
  · rw [prepareWeatherData_lookup_aqi]
    by_cases h1 : w.iqairData.aqi > 0
    · simp [h1]
    · rw [if_neg h1]
      cases hq : w.aqiList with
      | nil => simp [h1]
      | cons e t => simp [h1]
  · rw [prepareWeatherData_lookup_aqiDescription]
    by_cases h1 : w.iqairData.aqi > 0
    · simp [h1]
    · rw [if_neg h1]
      cases hq : w.aqiList with
      | nil => simp [h1]
      | cons e t => simp [h1]
  · rw [prepareWeatherData_lookup_aqiSource]
    by_cases h1 : w.iqairData.aqi > 0
    · simp [h1]
    · rw [if_neg h1]
      cases hq : w.aqiList with
      | nil => simp [h1]
      | cons e t => simp [h1]
  · exact ⟨by unfold sunriseStr; rw [if_neg h],
      by unfold sunsetStr; rw [if_neg h],
      by unfold dayLengthHours; rw [if_neg h]⟩

/-- C9 (witness). -/
theorem optional_fields_policy_witness :
    sunriseStr sampleWeather = "" ∧ sunsetStr sampleWeather = "" ∧
    dayLengthHours sampleWeather = 0 :=
  (optional_fields_policy "metric"
    sampleWeather).2.2.2.2.2.2.2.2.2.2.2 (by decide)
